import Mathlib

/-!
Shallow embedding of `src/app.py`, a single-page Streamlit form that forwards
a user question, together with a persona-specific system instruction, to a
hosted chat-completion endpoint and renders the reply plus token counters.

The external completion call is modelled as an explicit `Provider` function
from the request the code builds to either an exception message
(`Except.error`, the Python exception's `str(e)`) or a response object.
The module-level dictionary `EXPERT_TYPES` is threaded through the operations
as explicit state so that (non-)mutation of the registry is provable.
All string literals are taken verbatim from the source.
-/

/-- The empty string, named so it can be used like a literal. -/
def emptyStr : String := ""

/-- A single chat message, as serialized for the outbound call:
`SystemMessage`/`HumanMessage` from langchain carry a role and a content. -/
structure Message where
  role : String
  content : String
deriving DecidableEq, Repr

/-- Role string of a langchain `SystemMessage`. -/
def systemRole : String := "system"

/-- Role string of a langchain `HumanMessage`. -/
def userRole : String := "user"

/-- `SystemMessage(content=c)` in `app.py` line 44. -/
def SystemMessage (c : String) : Message := Message.mk systemRole c

/-- `HumanMessage(content=c)` in `app.py` line 45. -/
def HumanMessage (c : String) : Message := Message.mk userRole c

/-- The provider usage metadata `token_usage`: each counter may be absent
from the dictionary (`.get(key, 0)` in `app.py` lines 53-55). -/
structure TokenUsage where
  prompt_tokens : Option Nat
  completion_tokens : Option Nat
  total_tokens : Option Nat
deriving DecidableEq, Repr

/-- The empty usage dictionary, the default of
`response.response_metadata.get(..., {})` in `app.py` line 52. -/
def TokenUsage.empty : TokenUsage := TokenUsage.mk none none none

/-- A provider response: `response.content` plus the optional
`token_usage` entry of `response.response_metadata` (`app.py` lines 49-57). -/
structure LLMResponse where
  content : String
  token_usage : Option TokenUsage
deriving DecidableEq, Repr

/-- The request `get_llm_response` submits: `ChatOpenAI(model=..., temperature=...)`
followed by `llm.invoke(messages)` (`app.py` lines 36-49). -/
structure ChatRequest where
  model : String
  temperature : ℚ
  messages : List Message
deriving DecidableEq, Repr

/-- The external completion endpoint: either raises (error message = `str(e)`)
or returns a response object. -/
def Provider : Type := ChatRequest → Except String LLMResponse

/-- Fixed model identifier, `app.py` line 37. -/
def modelName : String := "gpt-4o-mini"

/-- Label of the first persona (medical expert). -/
def medLabel : String := "医療専門家"

/-- Instruction of the medical persona. -/
def medInstr : String := "あなたは経験豊富な医療専門家です。医学的な知識に基づいて、正確で分かりやすい回答を提供してください。"

/-- Label of the second persona (legal expert). -/
def lawLabel : String := "法律専門家"

/-- Instruction of the legal persona. -/
def lawInstr : String := "あなたは法律の専門家です。法的な観点から正確で詳細な情報を提供してください。"

/-- Label of the third persona (finance expert). -/
def finLabel : String := "金融専門家"

/-- Instruction of the finance persona. -/
def finInstr : String := "あなたは金融・投資の専門家です。金融市場や投資戦略について専門的なアドバイスを提供してください。"

/-- Label of the fourth persona (IT engineer). -/
def itLabel : String := "ITエンジニア"

/-- Instruction of the IT persona. -/
def itInstr : String := "あなたは経験豊富なITエンジニアです。技術的な問題に対して実践的な解決策を提供してください。"

/-- Label of the fifth persona (marketing expert). -/
def mktLabel : String := "マーケティング専門家"

/-- Instruction of the marketing persona. -/
def mktInstr : String := "あなたはマーケティングの専門家です。効果的なマーケティング戦略やビジネス成長のためのアドバイスを提供してください。"

/-- The persona registry `EXPERT_TYPES` (`app.py` lines 14-20), an insertion-ordered
label-to-instruction dictionary modelled as an association list. -/
def EXPERT_TYPES : List (String × String) :=
  [(medLabel, medInstr), (lawLabel, lawInstr), (finLabel, finInstr),
   (itLabel, itInstr), (mktLabel, mktInstr)]

/-- Error message header of `app.py` line 60 (`f-string` up to `str(e)`). -/
def errHeader : String := "エラーが発生しました: "

/-- A single-quote character as a string (escaped). -/
def quoteStr : String := "\x27"

/-- `str(KeyError(k))` in Python is the repr of the key: the label wrapped in
single quotes. -/
def keyErrorStr (k : String) : String := quoteStr ++ k ++ quoteStr

/-- The request built in `app.py` lines 36-46: fixed model name, fixed
temperature 0.7, and the two-message sequence system-then-user. -/
def mkRequest (instr user_input : String) : ChatRequest :=
  ChatRequest.mk modelName (0.7 : ℚ) [SystemMessage instr, HumanMessage user_input]

/-- `get_llm_response` (`app.py` lines 23-60) with the registry threaded as
explicit state and the list of provider calls recorded.  Returns
`(reply, prompt_tokens, completion_tokens, total_tokens)`, the requests made,
and the registry as it stands after the call.  The `try` block covers the
dictionary lookup `EXPERT_TYPES[expert_type]` (a `KeyError` on an unknown
label) and the provider call; the `except` branch converts either exception
into the error tuple of line 60. -/
def get_llm_response_reg (reg : List (String × String)) (provider : Provider)
    (user_input expert_type : String) :
    (String × Nat × Nat × Nat) × List ChatRequest × List (String × String) :=
  match reg.lookup expert_type with
  | none => ((errHeader ++ keyErrorStr expert_type, 0, 0, 0), [], reg)
  | some instr =>
    match provider (mkRequest instr user_input) with
    | Except.error e => ((errHeader ++ e, 0, 0, 0), [mkRequest instr user_input], reg)
    | Except.ok resp =>
      ((resp.content,
        ((resp.token_usage.getD TokenUsage.empty).prompt_tokens).getD 0,
        ((resp.token_usage.getD TokenUsage.empty).completion_tokens).getD 0,
        ((resp.token_usage.getD TokenUsage.empty).total_tokens).getD 0),
       [mkRequest instr user_input], reg)

/-- `get_llm_response` as called by `main`: reads the module-level registry. -/
def get_llm_response (provider : Provider) (user_input expert_type : String) :
    String × Nat × Nat × Nat :=
  (get_llm_response_reg EXPERT_TYPES provider user_input expert_type).1

/-- The provider requests made during one call of `get_llm_response`. -/
def llmRequests (provider : Provider) (user_input expert_type : String) :
    List ChatRequest :=
  (get_llm_response_reg EXPERT_TYPES provider user_input expert_type).2.1

/-- Outcome rendered by the submit branch of `main` (`app.py` lines 111-138):
a warning, a blocking error, or the answered reply with its three counters. -/
inductive SubmitOutcome where
  | warned (msg : String)
  | errored (msg : String)
  | answered (reply : String) (prompt_tokens completion_tokens total_tokens : Nat)
deriving DecidableEq, Repr

/-- Warning of `app.py` line 113. -/
def warnEmptyMsg : String := "⚠️ 質問を入力してください。"

/-- Error of `app.py` line 115. -/
def errNoKeyMsg : String := "❌ OpenAI APIキーが設定されていません。.envファイルを確認してください。"

/-- Python truthiness test `not openai_api_key` on the result of `os.getenv`:
true when the variable is unset (`none`) or set to the empty string. -/
abbrev apiKeyFalsy (api_key : Option String) : Prop := api_key.getD emptyStr = emptyStr

/-- Python `str.strip()` with no arguments (`app.py` line 112), modelled on
ASCII whitespace: drop whitespace characters from both ends of the string. -/
def pyStrip (s : String) : String :=
  String.mk (((s.data.dropWhile Char.isWhitespace).reverse.dropWhile
    Char.isWhitespace).reverse)

/-- The submit handler of `main` (`app.py` lines 111-138) with the registry
threaded as explicit state: an empty trimmed input warns, a falsy API key
errors, otherwise `get_llm_response` is invoked and its tuple rendered.
The returned `Bool` records whether `get_llm_response` was invoked. -/
def handle_submit (reg : List (String × String)) (provider : Provider)
    (api_key : Option String) (user_input expert_type : String) :
    (SubmitOutcome × Bool × List ChatRequest) × List (String × String) :=
  if pyStrip user_input = emptyStr then
    ((SubmitOutcome.warned warnEmptyMsg, false, []), reg)
  else if apiKeyFalsy api_key then
    ((SubmitOutcome.errored errNoKeyMsg, false, []), reg)
  else
    let r := get_llm_response_reg reg provider user_input expert_type
    ((SubmitOutcome.answered r.1.1 r.1.2.1 r.1.2.2.1 r.1.2.2.2, true, r.2.1), r.2.2)

/-- A provider that always raises with message `boomStr`. -/
def boomStr : String := "connection refused"

/-- Provider simulating an exception on every call. -/
def provFail : Provider := fun _ => Except.error boomStr

/-- Reply text used by the simulated successful provider. -/
def helloStr : String := "hello"

/-- Response with usage prompt 10, completion 5, total 15 and reply `hello`. -/
def respHello : LLMResponse :=
  LLMResponse.mk helloStr (some (TokenUsage.mk (some 10) (some 5) (some 15)))

/-- Provider simulating a success returning `respHello` on every call. -/
def provOk : Provider := fun _ => Except.ok respHello

/-- A label outside the registry. -/
def unknownLabel : String := "天文学者"

/-- A non-empty, non-whitespace user input. -/
def qStr : String := "頭痛がします"

/-- C7: the persona registry contains exactly five labels, and lookup of each
returns a non-empty instruction string. -/
theorem expert_registry_five_nonempty :
    EXPERT_TYPES.map Prod.fst = [medLabel, lawLabel, finLabel, itLabel, mktLabel] ∧
    (EXPERT_TYPES.map Prod.fst).length = 5 ∧
    ∀ l ∈ EXPERT_TYPES.map Prod.fst,
      ((EXPERT_TYPES.lookup l).isSome ∧ (EXPERT_TYPES.lookup l).getD emptyStr ≠ emptyStr) := by
  refine ⟨rfl, rfl, ?_⟩
  decide

/-- C1: for every input, label, and always-raising provider, `get_llm_response`
returns the error-header-prefixed reply with all three counters 0; no
exception escapes. -/
theorem llm_catches_all_exceptions (provider : Provider)
    (user_input expert_type : String)
    (h : ∀ req, ∃ e, provider req = Except.error e) :
    (∃ s, (get_llm_response provider user_input expert_type).1 = errHeader ++ s) ∧
    (get_llm_response provider user_input expert_type).2.1 = 0 ∧
    (get_llm_response provider user_input expert_type).2.2.1 = 0 ∧
    (get_llm_response provider user_input expert_type).2.2.2 = 0 := by
  unfold get_llm_response get_llm_response_reg
  cases hl : EXPERT_TYPES.lookup expert_type with
  | none =>
    simp only [hl]
    exact ⟨⟨keyErrorStr expert_type, rfl⟩, trivial, trivial, trivial⟩
  | some instr =>
    obtain ⟨e, he⟩ := h (mkRequest instr user_input)
    simp only [hl, he]
    exact ⟨⟨e, rfl⟩, trivial, trivial, trivial⟩

/-- Witness for C1 at a concrete input: a provider raising
`connection refused` on every call. -/
theorem llm_catches_all_exceptions_case :
    (∀ req, ∃ e, provFail req = Except.error e) ∧
    ((∃ s, (get_llm_response provFail qStr medLabel).1 = errHeader ++ s) ∧
     (get_llm_response provFail qStr medLabel).2.1 = 0 ∧
     (get_llm_response provFail qStr medLabel).2.2.1 = 0 ∧
     (get_llm_response provFail qStr medLabel).2.2.2 = 0) :=
  ⟨fun _ => ⟨boomStr, rfl⟩,
   llm_catches_all_exceptions provFail qStr medLabel (fun _ => ⟨boomStr, rfl⟩)⟩

/-- C2: for every known persona label, `get_llm_response` submits exactly one
request to the provider, carrying the fixed model identifier, sampling
temperature 0.7, and the ordered two-entry message list: system message with
the registered instruction first, user message with the user text second. -/
theorem llm_builds_fixed_request (provider : Provider)
    (user_input expert_type instr : String)
    (h : EXPERT_TYPES.lookup expert_type = some instr) :
    llmRequests provider user_input expert_type =
      [ChatRequest.mk modelName (0.7 : ℚ)
        [SystemMessage instr, HumanMessage user_input]] := by
  unfold llmRequests get_llm_response_reg
  simp only [h]
  cases provider (mkRequest instr user_input) with
  | error e => rfl
  | ok resp => rfl

/-- Witness for C2 at the medical persona with a concrete provider. -/
theorem llm_builds_fixed_request_case :
    EXPERT_TYPES.lookup medLabel = some medInstr ∧
    llmRequests provOk qStr medLabel =
      [ChatRequest.mk modelName (0.7 : ℚ)
        [SystemMessage medInstr, HumanMessage qStr]] :=
  ⟨by decide, llm_builds_fixed_request provOk qStr medLabel medInstr (by decide)⟩

/-- C3: on provider success, `get_llm_response` returns exactly the provider
reply text, and each counter as reported in the usage metadata, a missing
counter (or a missing usage entry) defaulting to 0. -/
theorem llm_success_extracts_usage (provider : Provider)
    (user_input expert_type instr : String) (resp : LLMResponse)
    (hl : EXPERT_TYPES.lookup expert_type = some instr)
    (hp : provider (mkRequest instr user_input) = Except.ok resp) :
    get_llm_response provider user_input expert_type =
      (resp.content,
       ((resp.token_usage.getD TokenUsage.empty).prompt_tokens).getD 0,
       ((resp.token_usage.getD TokenUsage.empty).completion_tokens).getD 0,
       ((resp.token_usage.getD TokenUsage.empty).total_tokens).getD 0) := by
  unfold get_llm_response get_llm_response_reg
  simp only [hl, hp]

/-- Witness for C3: the spec scenario — usage
prompt 10, completion 5, total 15 and reply hello — returned unchanged. -/
theorem llm_success_extracts_usage_case :
    EXPERT_TYPES.lookup medLabel = some medInstr ∧
    provOk (mkRequest medInstr qStr) = Except.ok respHello ∧
    get_llm_response provOk qStr medLabel = (helloStr, 10, 5, 15) :=
  ⟨by decide, rfl,
   (llm_success_extracts_usage provOk qStr medLabel medInstr respHello
      (by decide) rfl).trans rfl⟩

/-- C6: when the provider reports all three counters with total equal to
prompt plus completion (the upstream guarantee), the successful result
satisfies `totalTokens = promptTokens + completionTokens`. -/
theorem llm_total_is_sum (provider : Provider)
    (user_input expert_type instr : String) (resp : LLMResponse) (p c : Nat)
    (hl : EXPERT_TYPES.lookup expert_type = some instr)
    (hp : provider (mkRequest instr user_input) = Except.ok resp)
    (hu : resp.token_usage = some (TokenUsage.mk (some p) (some c) (some (p + c)))) :
    (get_llm_response provider user_input expert_type).2.2.2 =
      (get_llm_response provider user_input expert_type).2.1 +
      (get_llm_response provider user_input expert_type).2.2.1 := by
  unfold get_llm_response get_llm_response_reg
  simp only [hl, hp, hu]
  rfl

/-- Witness for C6 at the spec scenario 15 = 10 + 5. -/
theorem llm_total_is_sum_case :
    EXPERT_TYPES.lookup medLabel = some medInstr ∧
    provOk (mkRequest medInstr qStr) = Except.ok respHello ∧
    respHello.token_usage = some (TokenUsage.mk (some 10) (some 5) (some (10 + 5))) ∧
    (get_llm_response provOk qStr medLabel).2.2.2 =
      (get_llm_response provOk qStr medLabel).2.1 +
      (get_llm_response provOk qStr medLabel).2.2.1 :=
  ⟨by decide, rfl, rfl,
   llm_total_is_sum provOk qStr medLabel medInstr respHello 10 5 (by decide) rfl rfl⟩

/-- A whitespace-only user input. -/
def blankStr : String := "   "

/-- C4: when the submitted input trims to the empty string, the handler warns
and `get_llm_response` is never invoked (no provider request is made). -/
theorem empty_input_warns_no_call (reg : List (String × String))
    (provider : Provider) (api_key : Option String)
    (user_input expert_type : String) (h : pyStrip user_input = emptyStr) :
    (handle_submit reg provider api_key user_input expert_type).1.1 =
      SubmitOutcome.warned warnEmptyMsg ∧
    (handle_submit reg provider api_key user_input expert_type).1.2.1 = false ∧
    (handle_submit reg provider api_key user_input expert_type).1.2.2 = [] := by
  unfold handle_submit
  simp [h]

/-- Witness for C4: whitespace-only input with a configured key. -/
theorem empty_input_warns_no_call_case :
    pyStrip blankStr = emptyStr ∧
    ((handle_submit EXPERT_TYPES provOk (some boomStr) blankStr medLabel).1.1 =
       SubmitOutcome.warned warnEmptyMsg ∧
     (handle_submit EXPERT_TYPES provOk (some boomStr) blankStr medLabel).1.2.1 = false ∧
     (handle_submit EXPERT_TYPES provOk (some boomStr) blankStr medLabel).1.2.2 = []) :=
  ⟨by decide,
   empty_input_warns_no_call EXPERT_TYPES provOk (some boomStr) blankStr medLabel
     (by decide)⟩

/-- Counterexample to C5 as stated: a submission with empty input and no
configured credential produces the empty-input warning, not the blocking
missing-credential error. -/
theorem missing_key_without_error_case :
    (handle_submit EXPERT_TYPES provOk none emptyStr medLabel).1.1 =
      SubmitOutcome.warned warnEmptyMsg ∧
    (handle_submit EXPERT_TYPES provOk none emptyStr medLabel).1.1 ≠
      SubmitOutcome.errored errNoKeyMsg := by
  constructor
  · rfl
  · decide

/-- C5 (amended): for every submission whose trimmed input is non-empty, made
when the API credential is missing or empty, `get_llm_response` is never
invoked and the blocking error is produced instead. -/
theorem missing_key_blocks_call (reg : List (String × String))
    (provider : Provider) (api_key : Option String)
    (user_input expert_type : String)
    (hne : ¬ pyStrip user_input = emptyStr) (hk : apiKeyFalsy api_key) :
    (handle_submit reg provider api_key user_input expert_type).1.1 =
      SubmitOutcome.errored errNoKeyMsg ∧
    (handle_submit reg provider api_key user_input expert_type).1.2.1 = false ∧
    (handle_submit reg provider api_key user_input expert_type).1.2.2 = [] := by
  unfold handle_submit
  rw [if_neg hne, if_pos hk]
  exact ⟨rfl, rfl, rfl⟩

/-- Witness for the amended C5: non-blank input, unset key. -/
theorem missing_key_blocks_call_case :
    (¬ pyStrip qStr = emptyStr) ∧ apiKeyFalsy none ∧
    ((handle_submit EXPERT_TYPES provOk none qStr medLabel).1.1 =
       SubmitOutcome.errored errNoKeyMsg ∧
     (handle_submit EXPERT_TYPES provOk none qStr medLabel).1.2.1 = false ∧
     (handle_submit EXPERT_TYPES provOk none qStr medLabel).1.2.2 = []) :=
  ⟨by decide, by decide,
   missing_key_blocks_call EXPERT_TYPES provOk none qStr medLabel
     (by decide) (by decide)⟩

/-- Helper: one call of `get_llm_response_reg` returns its registry argument
unchanged, on every path. -/
theorem get_llm_reg_keeps_registry (reg : List (String × String))
    (provider : Provider) (user_input expert_type : String) :
    (get_llm_response_reg reg provider user_input expert_type).2.2 = reg := by
  unfold get_llm_response_reg
  cases h : reg.lookup expert_type with
  | none => simp only [h]
  | some instr =>
    simp only [h]
    cases hp : provider (mkRequest instr user_input) with
    | error e => simp only [hp]
    | ok resp => simp only [hp]

/-- C8: neither `get_llm_response` nor the submit handler of `main` mutates
the persona registry: whatever registry state they start from is returned
unchanged. -/
theorem registry_never_mutated (reg : List (String × String))
    (provider : Provider) (api_key : Option String)
    (user_input expert_type : String) :
    (get_llm_response_reg reg provider user_input expert_type).2.2 = reg ∧
    (handle_submit reg provider api_key user_input expert_type).2 = reg := by
  refine ⟨get_llm_reg_keeps_registry reg provider user_input expert_type, ?_⟩
  unfold handle_submit
  by_cases h1 : pyStrip user_input = emptyStr
  · rw [if_pos h1]
  · by_cases h2 : apiKeyFalsy api_key
    · rw [if_neg h1, if_pos h2]
    · rw [if_neg h1, if_neg h2]
      exact get_llm_reg_keeps_registry reg provider user_input expert_type

/-- C9: on a label absent from the registry, `get_llm_response` does not
raise: the `KeyError` is caught and returned as the error-prefixed reply with
all three counters 0, and no provider request is made. -/
theorem unknown_label_caught (provider : Provider)
    (user_input expert_type : String)
    (h : EXPERT_TYPES.lookup expert_type = none) :
    get_llm_response provider user_input expert_type =
      (errHeader ++ keyErrorStr expert_type, 0, 0, 0) ∧
    llmRequests provider user_input expert_type = [] := by
  unfold get_llm_response llmRequests get_llm_response_reg
  simp [h]

/-- Witness for C9 at a label outside the registry. -/
theorem unknown_label_caught_case :
    EXPERT_TYPES.lookup unknownLabel = none ∧
    (get_llm_response provFail qStr unknownLabel =
       (errHeader ++ keyErrorStr unknownLabel, 0, 0, 0) ∧
     llmRequests provFail qStr unknownLabel = []) :=
  ⟨by decide, unknown_label_caught provFail qStr unknownLabel (by decide)⟩

/-- C10: when the trimmed input is empty and the credential is simultaneously
missing, the empty-input warning is produced and the missing-credential error
is not: the input check precedes the credential check. -/
theorem empty_input_shadows_key_check (reg : List (String × String))
    (provider : Provider) (api_key : Option String)
    (user_input expert_type : String)
    (h : pyStrip user_input = emptyStr) (hk : apiKeyFalsy api_key) :
    (handle_submit reg provider api_key user_input expert_type).1.1 =
      SubmitOutcome.warned warnEmptyMsg ∧
    (handle_submit reg provider api_key user_input expert_type).1.1 ≠
      SubmitOutcome.errored errNoKeyMsg := by
  unfold handle_submit
  constructor
  · simp [h]
  · simp [h]

/-- Witness for C10: blank input and unset key. -/
theorem empty_input_shadows_key_check_case :
    pyStrip blankStr = emptyStr ∧ apiKeyFalsy none ∧
    ((handle_submit EXPERT_TYPES provFail none blankStr medLabel).1.1 =
       SubmitOutcome.warned warnEmptyMsg ∧
     (handle_submit EXPERT_TYPES provFail none blankStr medLabel).1.1 ≠
       SubmitOutcome.errored errNoKeyMsg) :=
  ⟨by decide, by decide,
   empty_input_shadows_key_check EXPERT_TYPES provFail none blankStr medLabel
     (by decide) (by decide)⟩
